import Mathlib

/-!
Verification of the IPv4/IPv6 multicast route store and VIF allocator of
`src/mroute-api.c` (smcroute).  The C module is embedded shallowly:

* the two module-level lists `mroute4_conf_list` (wildcard-source (*,G)
  "templates") and `mroute4_dyn_list` (dynamically resolved (S,G) routes)
  become a `RouteLists` record of Lean lists whose head is the most recently
  inserted element (`LIST_INSERT_HEAD` / `LIST_FOREACH`);
* each kernel `setsockopt` route operation becomes a `KernelOp` value recorded
  in an output trace; the kernel's verdict for an operation is supplied by an
  oracle `KOracle` (`0` = success, otherwise the `errno` value);
* `malloc` success/failure is an explicit `Bool` parameter on the operations
  that allocate;
* the VIF descriptor table `vif_list` becomes a `List (Option Nat)` holding
  the owning interface index of each slot (or `none` when the slot is free).
-/

set_option autoImplicit false

namespace SMCRoute

/-- An IPv4 (or, for the v6 records, IPv6) address value (`s_addr`), as a
natural number. -/
abbrev Addr : Type := Nat

/-- `INADDR_ANY`, the all-zero wildcard sender address. -/
def INADDR_ANY : Addr := 0

/-- `MAXVIFS`, the kernel's IPv4 VIF table capacity (32 on Linux); also the
length of the fixed `mfcc_ttls` array. -/
def MAXVIFS : Nat := 32

/-- `MAXMIFS`, the kernel's IPv6 MIF table capacity. -/
def MAXMIFS : Nat := 32

/-- The `errno` value `ENOENT`. -/
def ENOENT : Nat := 2

/-- The `errno` value `ENOMEM`. -/
def ENOMEM : Nat := 12

/-- The `mroute4_t` route record: sender address, group address, inbound VIF
index and the per-outbound-VIF TTL vector. -/
structure mroute4 where
  sender : Addr
  group : Addr
  inbound : Nat
  ttl : List Nat
deriving DecidableEq

/-- The `mroute6_t` route record (sender, group, inbound MIF, TTL vector). -/
structure mroute6 where
  sender : Addr
  group : Addr
  inbound : Nat
  ttl : List Nat
deriving DecidableEq

/-- The kernel `struct mfcctl` control record as assembled by this module:
`memset` to zero, then individual fields written. -/
structure mfcctl where
  mfcc_origin : Addr
  mfcc_mcastgrp : Addr
  mfcc_parent : Nat
  mfcc_ttls : List Nat
deriving DecidableEq

/-- The kernel `struct mf6cctl` control record; `mf6cc_ifset` is the outbound
MIF presence bitset, modelled as a list of Booleans. -/
structure mf6cctl where
  mf6cc_origin : Addr
  mf6cc_mcastgrp : Addr
  mf6cc_parent : Nat
  mf6cc_ifset : List Bool
deriving DecidableEq

/-- A kernel route operation issued over the mrouted control socket. -/
inductive KernelOp where
  | addMFC (mc : mfcctl)
  | delMFC (mc : mfcctl)
  | done
deriving DecidableEq

/-- Kernel verdict oracle for route operations: `0` means the `setsockopt`
succeeded, any other value is the `errno` it failed with. -/
abbrev KOracle : Type := KernelOp → Nat

/-- The control record built by `__mroute4_add` (lines 224-252): zeroed, then
origin, group and parent set from the route and the whole TTL vector copied
verbatim (`memcpy`). -/
def addRecord (ptr : mroute4) : mfcctl :=
  { mfcc_origin := ptr.sender, mfcc_mcastgrp := ptr.group,
    mfcc_parent := ptr.inbound, mfcc_ttls := ptr.ttl }

/-- The control record built by `__mroute4_del` (lines 255-275): zeroed, then
ONLY origin and group are written; the parent stays `0` and the TTL vector
stays the all-zero `MAXVIFS`-sized array left by `memset`. -/
def delRecord (ptr : mroute4) : mfcctl :=
  { mfcc_origin := ptr.sender, mfcc_mcastgrp := ptr.group,
    mfcc_parent := 0, mfcc_ttls := List.replicate MAXVIFS 0 }

/-- The control record built by `mroute6_del` (lines 580-602): zeroed, then
ONLY origin and group are written; the parent stays `0` and the interface
bitset stays all clear. -/
def delRecord6 (ptr : mroute6) : mf6cctl :=
  { mf6cc_origin := ptr.sender, mf6cc_mcastgrp := ptr.group,
    mf6cc_parent := 0, mf6cc_ifset := List.replicate MAXMIFS false }

/-- `__mroute4_add`: issues `MRT_ADD_MFC` with `addRecord ptr` and returns `0`
on success or the kernel's errno (the oracle's verdict). -/
def __mroute4_add (k : KOracle) (ptr : mroute4) : List KernelOp × Nat :=
  ([KernelOp.addMFC (addRecord ptr)], k (KernelOp.addMFC (addRecord ptr)))

/-- `__mroute4_del`: issues `MRT_DEL_MFC` with `delRecord ptr` and returns `0`
on success or the kernel's errno. -/
def __mroute4_del (k : KOracle) (ptr : mroute4) : List KernelOp × Nat :=
  ([KernelOp.delMFC (delRecord ptr)], k (KernelOp.delMFC (delRecord ptr)))

/-- The module state: `mroute4_conf_list` (the (*,G) templates) and
`mroute4_dyn_list` (the dynamically resolved routes), head = most recently
inserted. -/
structure RouteLists where
  conf : List mroute4
  dyn : List mroute4
deriving DecidableEq

/-- Result of a route-store operation: the new lists, the kernel operations
issued (in order), the C return value and the value `errno` was left holding
when the function set it on its failure paths. -/
structure Out where
  lists : RouteLists
  ops : List KernelOp
  ret : Int
  errno : Option Nat
deriving DecidableEq

/-- The (*,G) match used throughout `mroute-api.c`:
`!memcmp(&a->group, &b->group, ...) && a->inbound == b->inbound`. -/
def matches4 (a b : mroute4) : Bool :=
  a.group == b.group && a.inbound == b.inbound

/-- `mroute4_dyn_add` (lines 283-310): scan the conf list head-first (i.e.
most-recently-inserted-first) for a template matching `ptr`'s group and
inbound VIF.  On a hit, copy the caller's route `ptr` verbatim
(`memcpy(entry, ptr, ...)`) to the head of the dynamic list — when the
bookkeeping `malloc` succeeds; on failure the route is silently not
remembered — and return `__mroute4_add ptr`'s result.  On no hit, return `-1`
with `errno = ENOENT` and touch nothing. -/
def mroute4_dyn_add (allocOk : Bool) (k : KOracle) (st : RouteLists)
    (ptr : mroute4) : Out :=
  match st.conf.find? (fun e => matches4 e ptr) with
  | some _ =>
      let dyn := if allocOk then ptr :: st.dyn else st.dyn
      let r := (__mroute4_add k ptr).2
      { lists := { conf := st.conf, dyn := dyn },
        ops := (__mroute4_add k ptr).1,
        ret := (r : Int),
        errno := if r == 0 then none else some r }
  | none =>
      { lists := st, ops := [], ret := -1, errno := some ENOENT }

/-- `mroute4_add` (lines 320-341): a wildcard-sender (`INADDR_ANY`) route is
copied to the head of the conf list — unconditionally, with no duplicate
check and no kernel call (`return 0`); if its `malloc` fails, return `errno`
(`ENOMEM`).  Any concrete-sender route goes straight to the kernel via
`__mroute4_add` with no list change. -/
def mroute4_add (allocOk : Bool) (k : KOracle) (st : RouteLists)
    (ptr : mroute4) : Out :=
  if ptr.sender == INADDR_ANY then
    if allocOk then
      { lists := { conf := ptr :: st.conf, dyn := st.dyn },
        ops := [], ret := 0, errno := none }
    else
      { lists := st, ops := [], ret := (ENOMEM : Int), errno := some ENOMEM }
  else
    let r := (__mroute4_add k ptr).2
    { lists := st, ops := (__mroute4_add k ptr).1, ret := (r : Int),
      errno := if r == 0 then none else some r }

/-- The cascade loop of `mroute4_del` (lines 358-376): walk the conf list;
every template matching `ptr` first removes (with one `__mroute4_del` each)
every dynamic-list entry sharing the template's group and inbound VIF, then
is itself unlinked and freed.  Returns (new conf list, new dyn list, kernel
operations issued). -/
def delCascade (ptr : mroute4) :
    List mroute4 → List mroute4 → List mroute4 × List mroute4 × List KernelOp
  | [], dyn => ([], dyn, [])
  | e :: rest, dyn =>
    if matches4 e ptr then
      let removed := dyn.filter (fun s => matches4 e s)
      let kept := dyn.filter (fun s => !matches4 e s)
      let next := delCascade ptr rest kept
      (next.1, next.2.1,
        removed.map (fun s => KernelOp.delMFC (delRecord s)) ++ next.2.2)
    else
      let next := delCascade ptr rest dyn
      (e :: next.1, next.2.1, next.2.2)

/-- `mroute4_del` (lines 349-380): for a wildcard sender, run the cascade
over both lists, then — independently — issue `__mroute4_del` for the
caller's own route; for a concrete sender, just `__mroute4_del`.  The return
value is in both cases that of the final `__mroute4_del`. -/
def mroute4_del (k : KOracle) (st : RouteLists) (ptr : mroute4) : Out :=
  let st1 : RouteLists × List KernelOp :=
    if ptr.sender == INADDR_ANY then
      let c := delCascade ptr st.conf st.dyn
      ({ conf := c.1, dyn := c.2.1 }, c.2.2)
    else (st, [])
  let r := (__mroute4_del k ptr).2
  { lists := st1.1, ops := st1.2 ++ (__mroute4_del k ptr).1,
    ret := (r : Int), errno := if r == 0 then none else some r }

/-- `mroute4_disable` (lines 152-175): if the socket is closed, return at
once; otherwise issue the single family-wide `MRT_DONE`, close the socket and
unlink/free every entry of both lists — no per-entry kernel delete is ever
issued here. -/
def mroute4_disable (socketOpen : Bool) (st : RouteLists) :
    RouteLists × List KernelOp :=
  if socketOpen then ({ conf := [], dyn := [] }, [KernelOp.done])
  else (st, [])

/-- The fields of `struct iface` that `mroute4_add_vif` reads or writes:
the kernel interface index, the local address, and the writable `vif`
slot-number field (`-1` = no slot). -/
structure iface where
  ifindex : Nat
  inaddr : Addr
  vif : Int
deriving DecidableEq

/-- `struct vifctl` as filled in by `mroute4_add_vif` (lines 202-208). -/
structure vifctl where
  vifc_vifi : Nat
  vifc_flags : Nat
  vifc_threshold : Nat
  vifc_rate_limit : Nat
  vifc_lcl_addr : Addr
  vifc_rmt_addr : Addr
deriving DecidableEq

/-- Log lines emitted by `mroute4_add_vif`. -/
inductive VifLog where
  | errOutOfSpace (err : Nat)
  | noticeAddVif (slot : Nat)
  | errAddVif (ifindex : Nat)
deriving DecidableEq

/-- The `search free vif` loop (lines 189-194): index of the first table
entry holding no interface. -/
def findFreeVif : List (Option Nat) → Option Nat
  | [] => none
  | none :: _ => some 0
  | some _ :: rest => (findFreeVif rest).map Nat.succ

/-- Result of `mroute4_add_vif`: new VIF table, the (possibly updated)
interface record, the `MRT_ADD_VIF` operations issued and the log lines. -/
structure VifOut where
  tbl : List (Option Nat)
  ifc : iface
  ops : List vifctl
  logs : List VifLog
deriving DecidableEq

/-- `mroute4_add_vif` (lines 181-221): find the first free slot; with none,
log the out-of-space error (`ENOMEM`) and return with nothing changed and no
kernel call.  Otherwise build the `vifctl` (threshold 1, no rate limit,
local address from the interface) and issue `MRT_ADD_VIF`; only when the
kernel accepts it are the interface's `vif` field and the table slot
written. -/
def mroute4_add_vif (kernelOk : Bool) (tbl : List (Option Nat))
    (ifc : iface) : VifOut :=
  match findFreeVif tbl with
  | none =>
      { tbl := tbl, ifc := ifc, ops := [],
        logs := [VifLog.errOutOfSpace ENOMEM] }
  | some vif =>
      let vc : vifctl :=
        { vifc_vifi := vif, vifc_flags := 0, vifc_threshold := 1,
          vifc_rate_limit := 0, vifc_lcl_addr := ifc.inaddr,
          vifc_rmt_addr := INADDR_ANY }
      if kernelOk then
        { tbl := tbl.set vif (some ifc.ifindex),
          ifc := { ifc with vif := (vif : Int) },
          ops := [vc], logs := [VifLog.noticeAddVif vif] }
      else
        { tbl := tbl, ifc := ifc, ops := [vc],
          logs := [VifLog.noticeAddVif vif, VifLog.errAddVif ifc.ifindex] }

/-- The all-success kernel oracle, used for concrete evaluations. -/
def kZero : KOracle := fun _ => 0

/-! ## Helper lemmas -/

/-- When a template `e` matches `ptr` (same group, same inbound VIF), matching
any route against `e` is the same as matching it against `ptr`. -/
theorem matches4_congr {e ptr : mroute4} (h : matches4 e ptr = true)
    (s : mroute4) : matches4 e s = matches4 ptr s := by
  simp only [matches4, Bool.and_eq_true, beq_iff_eq] at h
  simp only [matches4, h.1, h.2]

/-! ## C3: dynamic resolve with no matching template -/

/-- C3: when no template in the conf list matches `ptr`'s group and inbound
VIF, `mroute4_dyn_add` returns `-1` with `errno = ENOENT`, issues no kernel
operation and leaves both lists unchanged. -/
theorem mroute4_dyn_add_no_match (allocOk : Bool) (k : KOracle)
    (st : RouteLists) (ptr : mroute4)
    (h : ∀ e ∈ st.conf, matches4 e ptr = false) :
    mroute4_dyn_add allocOk k st ptr =
      { lists := st, ops := [], ret := -1, errno := some ENOENT } := by
  have hf : st.conf.find? (fun e => matches4 e ptr) = none := by
    rw [List.find?_eq_none]
    intro x hx
    simp [h x hx]
  simp [mroute4_dyn_add, hf]

/-- Witness for C3 at a concrete input. -/
theorem mroute4_dyn_add_no_match_witness :
    (∀ e ∈ ({ conf := [⟨0, 6, 2, [1]⟩], dyn := [] } : RouteLists).conf,
        matches4 e ⟨9, 5, 1, []⟩ = false) ∧
    mroute4_dyn_add true kZero { conf := [⟨0, 6, 2, [1]⟩], dyn := [] }
        ⟨9, 5, 1, []⟩ =
      { lists := { conf := [⟨0, 6, 2, [1]⟩], dyn := [] }, ops := [],
        ret := -1, errno := some ENOENT } :=
  ⟨by decide,
   mroute4_dyn_add_no_match true kZero { conf := [⟨0, 6, 2, [1]⟩], dyn := [] }
     ⟨9, 5, 1, []⟩ (by decide)⟩

/-! ## C4: disable clears both lists with no per-entry kernel delete -/

/-- C4: for every prior state of the two lists, the list-clearing part of
`mroute4_disable` (socket open) empties both the conf and the dyn list and
issues only the single family-wide `MRT_DONE` — no per-entry `MRT_DEL_MFC`. -/
theorem mroute4_disable_clears (st : RouteLists) :
    mroute4_disable true st = ({ conf := [], dyn := [] }, [KernelOp.done]) :=
  rfl

/-! ## C5: wildcard-sender add inserts a template, touching nothing else -/

/-- C5: a route request whose sender is the wildcard address is inserted at
the head of the conf (template) list with no duplicate check; the call
returns success (`0`), issues no kernel operation and leaves the dyn list
unchanged. -/
theorem mroute4_add_template (k : KOracle) (st : RouteLists) (ptr : mroute4)
    (h : ptr.sender = INADDR_ANY) :
    mroute4_add true k st ptr =
      { lists := { conf := ptr :: st.conf, dyn := st.dyn },
        ops := [], ret := 0, errno := none } := by
  simp [mroute4_add, h]

/-- Witness for C5: inserting a duplicate of an already present template. -/
theorem mroute4_add_template_witness :
    (⟨0, 5, 1, [7]⟩ : mroute4).sender = INADDR_ANY ∧
    mroute4_add true kZero
        { conf := [⟨0, 5, 1, [7]⟩], dyn := [⟨9, 5, 1, [7]⟩] } ⟨0, 5, 1, [7]⟩ =
      { lists := { conf := [⟨0, 5, 1, [7]⟩, ⟨0, 5, 1, [7]⟩],
                   dyn := [⟨9, 5, 1, [7]⟩] },
        ops := [], ret := 0, errno := none } :=
  ⟨by decide,
   mroute4_add_template kZero
     { conf := [⟨0, 5, 1, [7]⟩], dyn := [⟨9, 5, 1, [7]⟩] } ⟨0, 5, 1, [7]⟩
     (by decide)⟩

/-! ## C6: allocation failure during dynamic resolve is swallowed -/

/-- C6: when a template matches but the bookkeeping `malloc` for the dynamic
entry fails, the kernel install is still issued for the resolved route, the
dyn list is left unchanged, and the return value is that of the kernel
install. -/
theorem mroute4_dyn_add_alloc_fail (k : KOracle) (st : RouteLists)
    (ptr e : mroute4)
    (h : st.conf.find? (fun x => matches4 x ptr) = some e) :
    (mroute4_dyn_add false k st ptr).lists = st ∧
    (mroute4_dyn_add false k st ptr).ops = [KernelOp.addMFC (addRecord ptr)] ∧
    (mroute4_dyn_add false k st ptr).ret =
      (k (KernelOp.addMFC (addRecord ptr)) : Int) := by
  simp [mroute4_dyn_add, h, __mroute4_add]

/-- Witness for C6 at a concrete input. -/
theorem mroute4_dyn_add_alloc_fail_witness :
    ({ conf := [⟨0, 5, 1, [7]⟩], dyn := [] } : RouteLists).conf.find?
        (fun x => matches4 x ⟨9, 5, 1, []⟩) = some ⟨0, 5, 1, [7]⟩ ∧
    ((mroute4_dyn_add false kZero { conf := [⟨0, 5, 1, [7]⟩], dyn := [] }
        ⟨9, 5, 1, []⟩).lists = { conf := [⟨0, 5, 1, [7]⟩], dyn := [] } ∧
     (mroute4_dyn_add false kZero { conf := [⟨0, 5, 1, [7]⟩], dyn := [] }
        ⟨9, 5, 1, []⟩).ops = [KernelOp.addMFC (addRecord ⟨9, 5, 1, []⟩)] ∧
     (mroute4_dyn_add false kZero { conf := [⟨0, 5, 1, [7]⟩], dyn := [] }
        ⟨9, 5, 1, []⟩).ret =
       (kZero (KernelOp.addMFC (addRecord ⟨9, 5, 1, []⟩)) : Int)) :=
  ⟨by decide,
   mroute4_dyn_add_alloc_fail kZero { conf := [⟨0, 5, 1, [7]⟩], dyn := [] }
     ⟨9, 5, 1, []⟩ ⟨0, 5, 1, [7]⟩ (by decide)⟩

/-! ## C7: removal records carry only origin and group -/

/-- C7: the control record issued for a route removal — `__mroute4_del` for
IPv4, `mroute6_del` for IPv6 — carries only the route's origin and group;
the parent (inbound slot) and the TTL vector / interface presence set stay
zero regardless of the route's own values, and `mroute4_del` always ends its
operation trace with exactly that record for the caller's route. -/
theorem del_record_only_origin_group (k : KOracle) (st : RouteLists)
    (p4 : mroute4) (p6 : mroute6) :
    (∃ pre, (mroute4_del k st p4).ops =
        pre ++ [KernelOp.delMFC (delRecord p4)]) ∧
    (delRecord p4).mfcc_origin = p4.sender ∧
    (delRecord p4).mfcc_mcastgrp = p4.group ∧
    (delRecord p4).mfcc_parent = 0 ∧
    (delRecord p4).mfcc_ttls = List.replicate MAXVIFS 0 ∧
    (delRecord6 p6).mf6cc_origin = p6.sender ∧
    (delRecord6 p6).mf6cc_mcastgrp = p6.group ∧
    (delRecord6 p6).mf6cc_parent = 0 ∧
    (delRecord6 p6).mf6cc_ifset = List.replicate MAXMIFS false :=
  ⟨⟨_, rfl⟩, rfl, rfl, rfl, rfl, rfl, rfl, rfl, rfl⟩

/-! ## C8: concrete-sender add/del never touch the lists -/

/-- C8: for a request whose sender is not the wildcard address, `mroute4_add`
and `mroute4_del` leave both lists completely unchanged and issue exactly one
kernel add (respectively remove) operation for that route. -/
theorem mroute4_concrete_passthrough (allocOk : Bool) (k : KOracle)
    (st : RouteLists) (ptr : mroute4) (h : ptr.sender ≠ INADDR_ANY) :
    (mroute4_add allocOk k st ptr).lists = st ∧
    (mroute4_add allocOk k st ptr).ops = [KernelOp.addMFC (addRecord ptr)] ∧
    (mroute4_del k st ptr).lists = st ∧
    (mroute4_del k st ptr).ops = [KernelOp.delMFC (delRecord ptr)] := by
  have hb : (ptr.sender == INADDR_ANY) = false := by
    simpa using h
  refine ⟨?_, ?_, ?_, ?_⟩ <;>
    simp [mroute4_add, mroute4_del, hb, __mroute4_add, __mroute4_del]

/-- Witness for C8 at a concrete input (nonempty lists stay untouched). -/
theorem mroute4_concrete_passthrough_witness :
    (⟨9, 5, 1, [3]⟩ : mroute4).sender ≠ INADDR_ANY ∧
    ((mroute4_add true kZero { conf := [⟨0, 5, 1, [7]⟩], dyn := [⟨8, 5, 1, [7]⟩] }
        ⟨9, 5, 1, [3]⟩).lists = { conf := [⟨0, 5, 1, [7]⟩], dyn := [⟨8, 5, 1, [7]⟩] } ∧
     (mroute4_add true kZero { conf := [⟨0, 5, 1, [7]⟩], dyn := [⟨8, 5, 1, [7]⟩] }
        ⟨9, 5, 1, [3]⟩).ops = [KernelOp.addMFC (addRecord ⟨9, 5, 1, [3]⟩)] ∧
     (mroute4_del kZero { conf := [⟨0, 5, 1, [7]⟩], dyn := [⟨8, 5, 1, [7]⟩] }
        ⟨9, 5, 1, [3]⟩).lists = { conf := [⟨0, 5, 1, [7]⟩], dyn := [⟨8, 5, 1, [7]⟩] } ∧
     (mroute4_del kZero { conf := [⟨0, 5, 1, [7]⟩], dyn := [⟨8, 5, 1, [7]⟩] }
        ⟨9, 5, 1, [3]⟩).ops = [KernelOp.delMFC (delRecord ⟨9, 5, 1, [3]⟩)]) :=
  ⟨by decide,
   mroute4_concrete_passthrough true kZero
     { conf := [⟨0, 5, 1, [7]⟩], dyn := [⟨8, 5, 1, [7]⟩] } ⟨9, 5, 1, [3]⟩
     (by decide)⟩

/-! ## C1: dynamic resolve against a template -/

/-- C1 counterexample: the claim says that after `addTemplate(g, iif, v)`
(here `v = [7, 7]`) a `resolveDynamic(s, g, iif)` stores a dynamic entry
with exactly `(s, g, iif, v)` and installs those values in the kernel.  On
the code, `mroute4_dyn_add` copies the *caller's* route verbatim
(`memcpy(entry, ptr, ...)` and `__mroute4_add(ptr)`), never the matched
template's TTL vector: with an upcall route carrying vector `[0, 0]`, no
entry `(9, 5, 1, [7, 7])` is stored and the kernel install does not carry
`[7, 7]` either. -/
theorem mroute4_dyn_add_uses_caller_vector_cex :
    (mroute4_add true kZero { conf := [], dyn := [] }
        ⟨INADDR_ANY, 5, 1, [7, 7]⟩).lists.conf = [⟨INADDR_ANY, 5, 1, [7, 7]⟩] ∧
    (⟨9, 5, 1, [7, 7]⟩ : mroute4) ∉
      (mroute4_dyn_add true kZero
        (mroute4_add true kZero { conf := [], dyn := [] }
          ⟨INADDR_ANY, 5, 1, [7, 7]⟩).lists ⟨9, 5, 1, [0, 0]⟩).lists.dyn ∧
    (mroute4_dyn_add true kZero
        (mroute4_add true kZero { conf := [], dyn := [] }
          ⟨INADDR_ANY, 5, 1, [7, 7]⟩).lists ⟨9, 5, 1, [0, 0]⟩).ops =
      [KernelOp.addMFC ⟨9, 5, 1, [0, 0]⟩] := by
  decide

/-- C1 (amended): when a template matching `ptr`'s group and inbound VIF
exists (matched head-first, i.e. most-recently-inserted-first) and the
bookkeeping allocation succeeds, `mroute4_dyn_add` stores the caller's route
`ptr` — sender, group, inbound VIF and the *caller-supplied* TTL vector,
verbatim — at the head of the dynamic list, leaves the conf list unchanged,
and issues the kernel install exactly once, with those caller-supplied
values; the matched template's own vector is never consulted. -/
theorem mroute4_dyn_add_match (k : KOracle) (st : RouteLists) (ptr e : mroute4)
    (h : st.conf.find? (fun x => matches4 x ptr) = some e) :
    (mroute4_dyn_add true k st ptr).lists =
      { conf := st.conf, dyn := ptr :: st.dyn } ∧
    (mroute4_dyn_add true k st ptr).ops =
      [KernelOp.addMFC (addRecord ptr)] := by
  simp [mroute4_dyn_add, h, __mroute4_add]

/-- Witness for the amended C1: two templates for the same (group, VIF); the
head-first scan matches the most recently inserted one. -/
theorem mroute4_dyn_add_match_witness :
    ({ conf := [⟨0, 5, 1, [2]⟩, ⟨0, 5, 1, [1]⟩], dyn := [] } :
        RouteLists).conf.find? (fun x => matches4 x ⟨9, 5, 1, [0]⟩) =
      some ⟨0, 5, 1, [2]⟩ ∧
    ((mroute4_dyn_add true kZero
        { conf := [⟨0, 5, 1, [2]⟩, ⟨0, 5, 1, [1]⟩], dyn := [] }
        ⟨9, 5, 1, [0]⟩).lists =
      { conf := [⟨0, 5, 1, [2]⟩, ⟨0, 5, 1, [1]⟩], dyn := [⟨9, 5, 1, [0]⟩] } ∧
     (mroute4_dyn_add true kZero
        { conf := [⟨0, 5, 1, [2]⟩, ⟨0, 5, 1, [1]⟩], dyn := [] }
        ⟨9, 5, 1, [0]⟩).ops = [KernelOp.addMFC (addRecord ⟨9, 5, 1, [0]⟩)]) :=
  ⟨by decide,
   mroute4_dyn_add_match kZero
     { conf := [⟨0, 5, 1, [2]⟩, ⟨0, 5, 1, [1]⟩], dyn := [] }
     ⟨9, 5, 1, [0]⟩ ⟨0, 5, 1, [2]⟩ (by decide)⟩

/-! ## C9: VIF table exhaustion -/

/-- A fully occupied table has no free slot. -/
theorem findFreeVif_eq_none {tbl : List (Option Nat)}
    (h : ∀ s ∈ tbl, s ≠ none) : findFreeVif tbl = none := by
  induction tbl with
  | nil => rfl
  | cons a rest ih =>
    cases a with
    | none => exact absurd rfl (h none (List.mem_cons_self _ _))
    | some x =>
      have hrest := ih (fun s hs => h s (List.mem_cons_of_mem _ hs))
      simp [findFreeVif, hrest]

/-- C9: with every slot of the VIF table occupied, `mroute4_add_vif` logs the
out-of-space error (the `ResourceExhausted` condition, errno `ENOMEM`),
leaves the table exactly as it was, issues no `MRT_ADD_VIF` operation and
does not write the interface's slot-number field. -/
theorem mroute4_add_vif_full (kernelOk : Bool) (tbl : List (Option Nat))
    (ifc : iface) (h : ∀ s ∈ tbl, s ≠ none) :
    mroute4_add_vif kernelOk tbl ifc =
      { tbl := tbl, ifc := ifc, ops := [],
        logs := [VifLog.errOutOfSpace ENOMEM] } := by
  simp [mroute4_add_vif, findFreeVif_eq_none h]

/-- Witness for C9: a full two-slot table stays intact. -/
theorem mroute4_add_vif_full_witness :
    (∀ s ∈ ([some 10, some 11] : List (Option Nat)), s ≠ none) ∧
    mroute4_add_vif true [some 10, some 11] ⟨12, 42, -1⟩ =
      { tbl := [some 10, some 11], ifc := ⟨12, 42, -1⟩, ops := [],
        logs := [VifLog.errOutOfSpace ENOMEM] } :=
  ⟨by decide,
   mroute4_add_vif_full true [some 10, some 11] ⟨12, 42, -1⟩ (by decide)⟩

/-! ## C10: kernel rejection of a slot registration leaves the slot free -/

/-- C10: when a free slot is found but the kernel rejects `MRT_ADD_VIF`, the
slot table and the interface record are left unchanged — the chosen slot is
not bound and the slot-number field is not written — so the very same slot
index is offered again to the next call. -/
theorem mroute4_add_vif_kernel_reject (tbl : List (Option Nat)) (ifc : iface)
    (v : Nat) (h : findFreeVif tbl = some v) :
    (mroute4_add_vif false tbl ifc).tbl = tbl ∧
    (mroute4_add_vif false tbl ifc).ifc = ifc ∧
    findFreeVif (mroute4_add_vif false tbl ifc).tbl = some v := by
  simp [mroute4_add_vif, h]

/-- Witness for C10: slot 1 is free, the kernel rejects, slot 1 stays the
next offer. -/
theorem mroute4_add_vif_kernel_reject_witness :
    findFreeVif [some 10, none] = some 1 ∧
    ((mroute4_add_vif false [some 10, none] ⟨12, 42, -1⟩).tbl =
        [some 10, none] ∧
     (mroute4_add_vif false [some 10, none] ⟨12, 42, -1⟩).ifc = ⟨12, 42, -1⟩ ∧
     findFreeVif (mroute4_add_vif false [some 10, none] ⟨12, 42, -1⟩).tbl =
        some 1) :=
  ⟨by decide,
   mroute4_add_vif_kernel_reject [some 10, none] ⟨12, 42, -1⟩ 1 (by decide)⟩

/-! ## C2: template removal cascades to the spawned dynamic entries -/

/-- When the dynamic list holds no entry matching `ptr`, the cascade only
drops the matching templates and issues no kernel operation. -/
theorem delCascade_clean (ptr : mroute4) (conf dyn : List mroute4)
    (hd : ∀ s ∈ dyn, matches4 ptr s = false) :
    delCascade ptr conf dyn =
      (conf.filter (fun e => !matches4 e ptr), dyn, []) := by
  induction conf with
  | nil => simp [delCascade]
  | cons e rest ih =>
    by_cases he : matches4 e ptr = true
    · have hrm : dyn.filter (fun s => matches4 e s) = [] := by
        rw [List.filter_eq_nil_iff]
        intro s hs
        simp [matches4_congr he s, hd s hs]
      have hkp : dyn.filter (fun s => !matches4 e s) = dyn := by
        rw [List.filter_eq_self]
        intro s hs
        simp [matches4_congr he s, hd s hs]
      simp [delCascade, he, hrm, hkp, ih]
    · have he' : matches4 e ptr = false := by
        simpa using he
      simp [delCascade, he', ih]

/-- Full behaviour of the `mroute4_del` cascade when at least one template
matches `ptr`: every matching template is dropped, every matching dynamic
entry is dropped, and exactly one kernel delete is issued per matching
dynamic entry (in list order). -/
theorem delCascade_spec (ptr : mroute4) (conf : List mroute4)
    (h : ∃ e ∈ conf, matches4 e ptr = true) (dyn : List mroute4) :
    delCascade ptr conf dyn =
      (conf.filter (fun e => !matches4 e ptr),
       dyn.filter (fun s => !matches4 ptr s),
       (dyn.filter (fun s => matches4 ptr s)).map
         (fun s => KernelOp.delMFC (delRecord s))) := by
  induction conf generalizing dyn with
  | nil => simp at h
  | cons e rest ih =>
    by_cases he : matches4 e ptr = true
    · have hrm : dyn.filter (fun s => matches4 e s) =
          dyn.filter (fun s => matches4 ptr s) :=
        List.filter_congr (fun s _ => matches4_congr he s)
      have hkp : dyn.filter (fun s => !matches4 e s) =
          dyn.filter (fun s => !matches4 ptr s) :=
        List.filter_congr (fun s _ => by rw [matches4_congr he s])
      have hclean : ∀ s ∈ dyn.filter (fun s => !matches4 ptr s),
          matches4 ptr s = false := by
        intro s hs
        have := (List.mem_filter.mp hs).2
        simpa using this
      simp [delCascade, he, hrm, hkp,
        delCascade_clean ptr rest _ hclean]
    · have he' : matches4 e ptr = false := by
        simpa using he
      have hrest : ∃ x ∈ rest, matches4 x ptr = true := by
        obtain ⟨x, hx, hmx⟩ := h
        rcases List.mem_cons.mp hx with rfl | hx'
        · exact absurd hmx he
        · exact ⟨x, hx', hmx⟩
      simp [delCascade, he', ih hrest]

/-- C2: removing a wildcard-sender route whose (group, inbound VIF) matches
at least one template issues exactly one kernel delete per dynamic entry
sharing that key — `N` deletes when `N` resolves were recorded — plus one
final delete for the caller's own route, and afterwards neither list holds
any entry keyed by that (group, inbound VIF). -/
theorem mroute4_del_template (k : KOracle) (st : RouteLists) (ptr : mroute4)
    (hs : ptr.sender = INADDR_ANY)
    (hm : ∃ e ∈ st.conf, matches4 e ptr = true) :
    (mroute4_del k st ptr).ops =
      (st.dyn.filter (fun s => matches4 ptr s)).map
        (fun s => KernelOp.delMFC (delRecord s))
      ++ [KernelOp.delMFC (delRecord ptr)] ∧
    (mroute4_del k st ptr).ops.length =
      (st.dyn.filter (fun s => matches4 ptr s)).length + 1 ∧
    (∀ e ∈ (mroute4_del k st ptr).lists.conf, matches4 e ptr = false) ∧
    (∀ s ∈ (mroute4_del k st ptr).lists.dyn, matches4 ptr s = false) := by
  have hc := delCascade_spec ptr st.conf hm st.dyn
  refine ⟨?_, ?_, ?_, ?_⟩
  · simp [mroute4_del, hs, __mroute4_del, hc]
  · simp [mroute4_del, hs, __mroute4_del, hc]
  · intro e he
    simp only [mroute4_del, hs] at he
    simp [hc] at he
    simpa using he.2
  · intro s hsmem
    simp only [mroute4_del, hs] at hsmem
    simp [hc] at hsmem
    simpa using hsmem.2

/-- Witness for C2: one template, two spawned dynamic entries for its key and
one unrelated dynamic entry; the removal issues 2 + 1 kernel deletes. -/
theorem mroute4_del_template_witness :
    ((⟨0, 5, 1, []⟩ : mroute4).sender = INADDR_ANY ∧
     ∃ e ∈ ({ conf := [⟨0, 5, 1, [7]⟩],
              dyn := [⟨9, 5, 1, [7]⟩, ⟨8, 4, 1, [2]⟩, ⟨3, 5, 1, [7]⟩] } :
                RouteLists).conf, matches4 e ⟨0, 5, 1, []⟩ = true) ∧
    ((mroute4_del kZero
        { conf := [⟨0, 5, 1, [7]⟩],
          dyn := [⟨9, 5, 1, [7]⟩, ⟨8, 4, 1, [2]⟩, ⟨3, 5, 1, [7]⟩] }
        ⟨0, 5, 1, []⟩).ops =
      (({ conf := [⟨0, 5, 1, [7]⟩],
          dyn := [⟨9, 5, 1, [7]⟩, ⟨8, 4, 1, [2]⟩, ⟨3, 5, 1, [7]⟩] } :
            RouteLists).dyn.filter
        (fun s => matches4 ⟨0, 5, 1, []⟩ s)).map
          (fun s => KernelOp.delMFC (delRecord s))
        ++ [KernelOp.delMFC (delRecord ⟨0, 5, 1, []⟩)] ∧
     (mroute4_del kZero
        { conf := [⟨0, 5, 1, [7]⟩],
          dyn := [⟨9, 5, 1, [7]⟩, ⟨8, 4, 1, [2]⟩, ⟨3, 5, 1, [7]⟩] }
        ⟨0, 5, 1, []⟩).ops.length =
      (({ conf := [⟨0, 5, 1, [7]⟩],
          dyn := [⟨9, 5, 1, [7]⟩, ⟨8, 4, 1, [2]⟩, ⟨3, 5, 1, [7]⟩] } :
            RouteLists).dyn.filter
        (fun s => matches4 ⟨0, 5, 1, []⟩ s)).length + 1 ∧
     (∀ e ∈ (mroute4_del kZero
        { conf := [⟨0, 5, 1, [7]⟩],
          dyn := [⟨9, 5, 1, [7]⟩, ⟨8, 4, 1, [2]⟩, ⟨3, 5, 1, [7]⟩] }
        ⟨0, 5, 1, []⟩).lists.conf, matches4 e ⟨0, 5, 1, []⟩ = false) ∧
     (∀ s ∈ (mroute4_del kZero
        { conf := [⟨0, 5, 1, [7]⟩],
          dyn := [⟨9, 5, 1, [7]⟩, ⟨8, 4, 1, [2]⟩, ⟨3, 5, 1, [7]⟩] }
        ⟨0, 5, 1, []⟩).lists.dyn, matches4 ⟨0, 5, 1, []⟩ s = false)) :=
  ⟨⟨by decide, by decide⟩,
   mroute4_del_template kZero
     { conf := [⟨0, 5, 1, [7]⟩],
       dyn := [⟨9, 5, 1, [7]⟩, ⟨8, 4, 1, [2]⟩, ⟨3, 5, 1, [7]⟩] }
     ⟨0, 5, 1, []⟩ (by decide) (by decide)⟩

end SMCRoute
